import Mathlib

/-!
Shallow embedding of the AppSec span-processing pipeline of
`ddtrace/appsec/processor.py` and of the post-call region of
`ddtrace/contrib/opensearch/patch.py`.

Modelling conventions:
* Python dicts are ordered association lists `List (String × α)` with Python's
  assignment semantics (`setItem`: update in place, append when the key is new).
* Python sets are `Finset String`.
* The float literal `1.0` stored by `set_metric` is modelled as `(1 : Rat)`;
  no floating-point arithmetic occurs anywhere in the modelled code, floats are
  only stored and compared as opaque values.
* Python exceptions are modelled with an explicit error component: a stateful
  procedure that mutates a span and may raise returns `Span × Option PyErr`
  (the span keeps the mutations applied before the raise, as in Python, where
  the caller owns the span object).
* The external `DDWaf` engine (`ddtrace/appsec/_ddwaf`) is opaque: a record of
  its `required_data` list and its `run` function, which may raise.
-/

set_option autoImplicit false

namespace DdTracePy

/-- Python dict lookup `m.get(k)` / `k in m`: the binding for `k`, if any. -/
def lookupAssoc {α : Type} : List (String × α) → String → Option α
  | [], _ => none
  | (k', v) :: rest, k => if k' = k then some v else lookupAssoc rest k

/-- Python dict assignment `m[k] = v`: update in place when `k` is present,
append otherwise. -/
def setItem {α : Type} : List (String × α) → String → α → List (String × α)
  | [], k, v => [(k, v)]
  | (k', v') :: rest, k, v =>
      if k' = k then (k, v) :: rest else (k', v') :: setItem rest k v

/-- The keys of a dict, in insertion order. -/
def dictKeys {α : Type} (m : List (String × α)) : List String := m.map Prod.fst

/-- CPython's ASCII lower-casing of one character (the fragment of `str.lower`
exercised by header names). -/
def pyCharLower (c : Char) : Char :=
  if 65 ≤ c.toNat ∧ c.toNat ≤ 90 then Char.ofNat (c.toNat + 32) else c

/-- Python `s.lower()` (ASCII fragment). -/
def pyLower (s : String) : String := ⟨s.data.map pyCharLower⟩

/-- A header value as handled by `_transform_headers`: a Python `str`, or a
`list` built by the repeated-header merge.  Since Python's `list.append` is
untyped, the merge could in principle nest lists, so the model keeps the
general recursive shape. -/
inductive HVal where
  | str : String → HVal
  | list : List HVal → HVal

/-- Embed a raw `Dict[str, str]` header map into the general header-value
dicts that `_transform_headers` consumes and produces. -/
def rawHeaders (data : List (String × String)) : List (String × HVal) :=
  data.map (fun p => (p.1, HVal.str p.2))

/-- One iteration of the loop body of `_transform_headers`
(`ddtrace/appsec/processor.py` lines 36-47): lower-case the name, drop
`cookie` and `set-cookie`, merge repeats into a list, else insert. -/
def transformStep (normalized : List (String × HVal)) (header : String)
    (value : HVal) : List (String × HVal) :=
  let h := pyLower header
  if h = "cookie" ∨ h = "set-cookie" then normalized
  else
    match lookupAssoc normalized h with
    | some (HVal.list existing) => setItem normalized h (HVal.list (existing ++ [value]))
    | some existing => setItem normalized h (HVal.list [existing, value])
    | none => setItem normalized h value

/-- `_transform_headers` (`ddtrace/appsec/processor.py` lines 33-48). -/
def transform_headers (data : List (String × HVal)) : List (String × HVal) :=
  data.foldl (fun normalized p => transformStep normalized p.1 p.2) []

/-- Specification helper: the values of the entries of `data` whose lower-cased
name is `k`, in input order. -/
def valuesFor (k : String) (data : List (String × HVal)) : List HVal :=
  (data.filter (fun p => pyLower p.1 = k)).map Prod.snd

/-- Specification helper: how `_transform_headers` combines an existing binding
with one further value for the same lower-cased name. -/
def mergeVal : Option HVal → HVal → HVal
  | none, v => v
  | some (HVal.list xs), v => HVal.list (xs ++ [v])
  | some w, v => HVal.list [w, v]

/-- Specification helper: fold `mergeVal` over a list of values. -/
def mergeAll (o : Option HVal) (vs : List HVal) : Option HVal :=
  vs.foldl (fun acc v => some (mergeVal acc v)) o

/-- Keys that `_transform_headers` can emit: fixed under lower-casing and not a
(set-)cookie name. -/
def goodKey (k : String) : Prop :=
  pyLower k = k ∧ k ≠ "cookie" ∧ k ≠ "set-cookie"

/-- A value stored in a span's tag map.  `Span.set_tag` accepts arbitrary
values (strings, header lists, ints, or `None` when called with one argument);
the span stringifies them internally, which is opaque to this model. -/
inductive TagVal where
  | str : String → TagVal
  | ofHVal : HVal → TagVal
  | int : Int → TagVal
  | null : TagVal

/-- A Python exception, opaque except for its kind. -/
inductive PyErr where
  | attributeError : PyErr
  | valueError : PyErr
  | exception : String → PyErr
deriving DecidableEq

/-- The span: an opaque key/value store with a type discriminator
(spec section 1: `getTag`, `setTag`, `setMetric`, `spanType`; plus the `error`
flag used by the opensearch patch). -/
structure Span where
  span_type : Option String := none
  tags : List (String × TagVal) := []
  metrics : List (String × Rat) := []
  error : Int := 0

/-- `span.set_tag(k, v)`. -/
def Span.set_tag (s : Span) (k : String) (v : TagVal) : Span :=
  { s with tags := setItem s.tags k v }

/-- `span._set_str_tag(k, v)`. -/
def Span.set_str_tag (s : Span) (k v : String) : Span :=
  s.set_tag k (TagVal.str v)

/-- `span.set_metric(k, v)`. -/
def Span.set_metric (s : Span) (k : String) (v : Rat) : Span :=
  { s with metrics := setItem s.metrics k v }

/-- `span.get_tag(k)` (returns `None` when the tag is absent). -/
def Span.get_tag (s : Span) (k : String) : Option TagVal :=
  lookupAssoc s.tags k

/-- `SpanTypes.WEB` (from `ddtrace.ext`, a collaborator constant). -/
def WEB : String := "web"

/-- `MANUAL_KEEP_KEY` (from `ddtrace.constants`, a collaborator constant; the
claims depend only on it being a fixed key). -/
def MANUAL_KEEP_KEY : String := "manual.keep"

/-- `ORIGIN_KEY` (from `ddtrace.constants`, a collaborator constant). -/
def ORIGIN_KEY : String := "_dd.origin"

namespace Addresses

/-- `_Addresses.SERVER_REQUEST_BODY`. -/
def SERVER_REQUEST_BODY : String := "server.request.body"

/-- `_Addresses.SERVER_REQUEST_QUERY`. -/
def SERVER_REQUEST_QUERY : String := "server.request.query"

/-- `_Addresses.SERVER_REQUEST_HEADERS_NO_COOKIES`. -/
def SERVER_REQUEST_HEADERS_NO_COOKIES : String := "server.request.headers.no_cookies"

/-- `_Addresses.SERVER_REQUEST_URI_RAW`. -/
def SERVER_REQUEST_URI_RAW : String := "server.request.uri.raw"

/-- `_Addresses.SERVER_REQUEST_METHOD`. -/
def SERVER_REQUEST_METHOD : String := "server.request.method"

/-- `_Addresses.SERVER_REQUEST_PATH_PARAMS`. -/
def SERVER_REQUEST_PATH_PARAMS : String := "server.request.path_params"

/-- `_Addresses.SERVER_REQUEST_COOKIES`. -/
def SERVER_REQUEST_COOKIES : String := "server.request.cookies"

/-- `_Addresses.SERVER_RESPONSE_STATUS`. -/
def SERVER_RESPONSE_STATUS : String := "server.response.status"

/-- `_Addresses.SERVER_RESPONSE_HEADERS_NO_COOKIES`. -/
def SERVER_RESPONSE_HEADERS_NO_COOKIES : String := "server.response.headers.no_cookies"

end Addresses

/-- `_COLLECTED_REQUEST_HEADERS` (`ddtrace/appsec/processor.py` lines 68-87),
with the source's exact spelling.  Membership of the Python `set` is modelled
by list membership. -/
def COLLECTED_REQUEST_HEADERS : List String :=
  ["accept", "accept-encoding", "accept-language", "content-encoding",
   "content-language", "content-length", "content-type", "forwarded",
   "forwarded-for", "host", "true-client-ip", "user-agent", "via",
   "x-client-ip", "x-cluster-client-ip", "x-forwarded", "x-forwarded-for",
   "x-real-ip"]

/-- `_COLLECTED_RESPONSE_HEADERS` (`ddtrace/appsec/processor.py` lines 90-95),
with the source's exact spelling — note the two capitalized entries. -/
def COLLECTED_RESPONSE_HEADERS : List String :=
  ["content-length", "content-type", "Content-Encoding", "Content-Language"]

/-- Modelled from the spec: `_normalize_tag_name` (from
`ddtrace.contrib.trace_utils`, not among the sources).  The spec fixes only a
naming convention of the shape kind `.headers.` name for projected header
tags; the claims depend only on the name being determined by `kind` and the
header name. -/
def normalize_tag_name (kind name : String) : String :=
  kind ++ ".headers." ++ pyLower name

/-- `_set_headers` (`ddtrace/appsec/processor.py` lines 98-103).  The source
iterates over the keys of the dict `headers` and reads `headers[k]`; since a
Python dict has unique keys, this is the same as iterating over its items. -/
def set_headers (span : Span) (kind : String) (to_collect : List String)
    (headers : List (String × HVal)) : Span :=
  headers.foldl
    (fun sp p =>
      if pyLower p.1 ∈ to_collect then
        sp.set_tag (normalize_tag_name kind p.1) (TagVal.ofHVal p.2)
      else sp)
    span

/-- A value of the data map passed to `DDWaf.run`: either an opaque context
value or a normalized header map. -/
inductive DataVal where
  | str : String → DataVal
  | headers : List (String × HVal) → DataVal

/-- The external in-app WAF engine (`ddtrace.appsec._ddwaf.DDWaf`), opaque:
its advertised `required_data` addresses and its `run` method, which returns
an optional serialized-JSON result and may raise. -/
structure DDWaf where
  required_data : List String
  run : List (String × DataVal) → Except PyErr (Option String)

/-- `AppSecSpanProcessor` (`ddtrace/appsec/processor.py` lines 106-111): the
`rules` path, the optional engine `_ddwaf`, and the address set
`_addresses_to_keep`. -/
structure AppSecSpanProcessor where
  rules : String
  ddwaf : Option DDWaf := none
  addresses_to_keep : Finset String := ∅

/-- `AppSecSpanProcessor.enabled` (lines 113-115). -/
def AppSecSpanProcessor.enabled (p : AppSecSpanProcessor) : Bool :=
  p.ddwaf.isSome

/-- `AppSecSpanProcessor._mark_needed` (lines 156-158): `set.add`. -/
def AppSecSpanProcessor.mark_needed (p : AppSecSpanProcessor) (address : String) :
    AppSecSpanProcessor :=
  { p with addresses_to_keep := insert address p.addresses_to_keep }

/-- `AppSecSpanProcessor._is_needed` (lines 160-162): set membership. -/
def AppSecSpanProcessor.is_needed (p : AppSecSpanProcessor) (address : String) : Bool :=
  decide (address ∈ p.addresses_to_keep)

/-- The tail of `__attrs_post_init__` (lines 147-150) once an engine `w` is at
hand: mark every address the engine requires, then unconditionally mark the
baseline request-headers address. -/
def finish_init (p : AppSecSpanProcessor) (w : DDWaf) : AppSecSpanProcessor :=
  let p := { p with ddwaf := some w }
  let p := w.required_data.foldl (fun q a => q.mark_needed a) p
  p.mark_needed Addresses.SERVER_REQUEST_HEADERS_NO_COOKIES

/-- `__attrs_post_init__` (lines 117-150).  Rule-file reading and engine
construction are external effects, passed in as oracles: `loadRules` models
`open` + `json.load` of `self.rules` (any of its exception branches re-raises
after logging, which is state-free), and `ddwafNew` models `DDWaf(rules)`,
which may raise `ValueError`. -/
def attrs_post_init (p : AppSecSpanProcessor) (loadRules : Except PyErr String)
    (ddwafNew : String → Except PyErr DDWaf) : Except PyErr AppSecSpanProcessor :=
  match p.ddwaf with
  | some w => Except.ok (finish_init p w)
  | none => do
      let rules ← loadRules
      let w ← ddwafNew rules
      Except.ok (finish_init p w)

/-- The per-request context store (spec section 1), with one field per lookup
key used in `on_span_finish`: `request_query` is `http.request.query`,
`request_headers` is `http.request.headers`, `request_uri` is
`http.request.uri`, `request_method` is `http.request.method`,
`request_path_params` is `http.request.path_params`, `request_cookies` is
`http.request.cookies`, `response_status` is `http.response.status` and
`response_headers` is `http.response.headers`.  Header items are raw
`Dict[str, str]` maps; the remaining items are opaque values. -/
structure Ctx where
  request_query : Option String := none
  request_headers : Option (List (String × String)) := none
  request_uri : Option String := none
  request_method : Option String := none
  request_path_params : Option String := none
  request_cookies : Option String := none
  response_status : Option String := none
  response_headers : Option (List (String × String)) := none

/-- Lines 177-179: the request headers fetched from the context store and
normalized once; this value is retained for tag projection. -/
def normalizedRequestHeaders (ctx : Ctx) : Option (List (String × HVal)) :=
  ctx.request_headers.map (fun h => transform_headers (rawHeaders h))

/-- Lines 208-210: the response headers fetched from the context store and
normalized once. -/
def normalizedResponseHeaders (ctx : Ctx) : Option (List (String × HVal)) :=
  ctx.response_headers.map (fun h => transform_headers (rawHeaders h))

/-- The data-map assembly of `on_span_finish` (lines 171-212), in source
order.  Note line 181 applies `_transform_headers` a second time to the
already-normalized request headers before inserting them. -/
def buildData (p : AppSecSpanProcessor) (ctx : Ctx) : List (String × DataVal) :=
  let data : List (String × DataVal) := []
  let data :=
    if p.is_needed Addresses.SERVER_REQUEST_QUERY then
      match ctx.request_query with
      | some q => setItem data Addresses.SERVER_REQUEST_QUERY (DataVal.str q)
      | none => data
    else data
  let data :=
    if p.is_needed Addresses.SERVER_REQUEST_HEADERS_NO_COOKIES then
      match normalizedRequestHeaders ctx with
      | some h => setItem data Addresses.SERVER_REQUEST_HEADERS_NO_COOKIES
          (DataVal.headers (transform_headers h))
      | none => data
    else data
  let data :=
    if p.is_needed Addresses.SERVER_REQUEST_URI_RAW then
      match ctx.request_uri with
      | some uri => setItem data Addresses.SERVER_REQUEST_URI_RAW (DataVal.str uri)
      | none => data
    else data
  let data :=
    if p.is_needed Addresses.SERVER_REQUEST_METHOD then
      match ctx.request_method with
      | some m => setItem data Addresses.SERVER_REQUEST_METHOD (DataVal.str m)
      | none => data
    else data
  let data :=
    if p.is_needed Addresses.SERVER_REQUEST_PATH_PARAMS then
      match ctx.request_path_params with
      | some pp => setItem data Addresses.SERVER_REQUEST_PATH_PARAMS (DataVal.str pp)
      | none => data
    else data
  let data :=
    if p.is_needed Addresses.SERVER_REQUEST_COOKIES then
      match ctx.request_cookies with
      | some c => setItem data Addresses.SERVER_REQUEST_COOKIES (DataVal.str c)
      | none => data
    else data
  let data :=
    if p.is_needed Addresses.SERVER_RESPONSE_STATUS then
      match ctx.response_status with
      | some st => setItem data Addresses.SERVER_RESPONSE_STATUS (DataVal.str st)
      | none => data
    else data
  let data :=
    if p.is_needed Addresses.SERVER_RESPONSE_HEADERS_NO_COOKIES then
      match normalizedResponseHeaders ctx with
      | some h => setItem data Addresses.SERVER_RESPONSE_HEADERS_NO_COOKIES
          (DataVal.headers h)
      | none => data
    else data
  data

/-- Lines 168-169: the baseline telemetry applied to every WEB span. -/
def baselineSpan (span : Span) : Span :=
  (span.set_metric "_dd.appsec.enabled" 1).set_str_tag "_dd.runtime_family" "python"

/-- Lines 217-227: the tag application performed when `run` returns a result
`res`, up to and including the manual-keep tag: project allow-listed request
and response headers, set the event tag, the serialized-result tag (the
envelope `'\x7b"triggers":%s\x7d' % res`), and the manual-keep tag. -/
def preOriginSpan (sp : Span) (reqHeaders respHeaders : Option (List (String × HVal)))
    (res : String) : Span :=
  let sp :=
    match reqHeaders with
    | some h => set_headers sp "request" COLLECTED_REQUEST_HEADERS h
    | none => sp
  let sp :=
    match respHeaders with
    | some h => set_headers sp "response" COLLECTED_RESPONSE_HEADERS h
    | none => sp
  let sp := sp.set_str_tag "appsec.event" "true"
  let sp := sp.set_str_tag "_dd.appsec.json" ("\x7b\"triggers\":" ++ res ++ "\x7d")
  sp.set_tag MANUAL_KEEP_KEY TagVal.null

/-- Lines 217-229: the whole match branch; after `preOriginSpan`, lines
228-229 set the origin tag only when it is still unset. -/
def matchedSpan (sp : Span) (reqHeaders respHeaders : Option (List (String × HVal)))
    (res : String) : Span :=
  let sp := preOriginSpan sp reqHeaders respHeaders res
  if (sp.get_tag ORIGIN_KEY).isNone then sp.set_str_tag ORIGIN_KEY "appsec" else sp

/-- `AppSecSpanProcessor.on_span_finish` (lines 164-229).  The returned pair
is the final state of the (caller-owned, in-place mutated) span together with
the exception that escaped, if any: accessing `self._ddwaf.run` while
`_ddwaf` is `None` raises `AttributeError`, and an exception raised inside
`run` is not caught. -/
def on_span_finish (p : AppSecSpanProcessor) (ctx : Ctx) (span : Span) :
    Span × Option PyErr :=
  if span.span_type = some WEB then
    let sp := baselineSpan span
    match p.ddwaf with
    | none => (sp, some PyErr.attributeError)
    | some waf =>
        match waf.run (buildData p ctx) with
        | Except.error e => (sp, some e)
        | Except.ok none => (sp, none)
        | Except.ok (some res) =>
            (matchedSpan sp (normalizedRequestHeaders ctx)
              (normalizedResponseHeaders ctx) res, none)
  else (span, none)

/-- The value returned by the wrapped `Transport.perform_request`
(`ddtrace/contrib/opensearch/patch.py` lines 107-113): a 2-tuple of status
and body (opensearch < 2.4) or just the body (opensearch >= 2.4).  The body is
an opaque payload. -/
inductive OSResult where
  | statusBody : Int → String → OSResult
  | bodyOnly : String → OSResult

/-- The payload on which `data.get("took")` is attempted. -/
def OSResult.body : OSResult → String
  | OSResult.statusBody _ b => b
  | OSResult.bodyOnly b => b

/-- `opensearch.exceptions.TransportError`, opaque except for the
`status_code` attribute read by `getattr(e, "status_code", 500)` (absent when
`none`). -/
structure TransportError where
  status_code : Option Int

/-- The post-call region of `_perform_request`
(`ddtrace/contrib/opensearch/patch.py` lines 98-124), taking as input the
span as mutated by the pre-call tagging (lines 72-96) and the outcome of
`func(*args, **kwargs)`.  `tookOf` is an oracle for the body-dependent
fragment `data.get("took")` / `if took:` / `int(took)` of the soft-fail
`try` block: `Except.ok (some t)` means a truthy `took` converting to `t`,
`Except.ok none` a missing or falsy `took`, and `Except.error` any exception
raised inside that fragment (swallowed by the bare `except Exception`).  The
returned pair is the final span state and the re-raised outcome. -/
def perform_request_post (span : Span) (funcResult : Except TransportError OSResult)
    (tookOf : String → Except PyErr (Option Int)) :
    Span × Except TransportError OSResult :=
  match funcResult with
  | Except.error e =>
      let sp := span.set_tag "http.status_code" (TagVal.int (e.status_code.getD 500))
      ({ sp with error := 1 }, Except.error e)
  | Except.ok result =>
      let status : Option Int :=
        match result with
        | OSResult.statusBody s _ => some s
        | OSResult.bodyOnly _ => none
      let sp :=
        match tookOf result.body with
        | Except.ok (some t) => span.set_metric "opensearch.took" (t : Rat)
        | _ => span
      let sp :=
        match status with
        | some s => if s ≠ 0 then sp.set_tag "http.status_code" (TagVal.int s) else sp
        | none => sp
      (sp, Except.ok result)

/-! Concrete fixtures used by witnesses and counterexamples. -/

/-- An engine that reports a match on every input. -/
def wafMatchAll : DDWaf :=
  { required_data := [], run := fun _ => Except.ok (some "[]") }

/-- An engine that reports no match on any input. -/
def wafNoMatch : DDWaf :=
  { required_data := [], run := fun _ => Except.ok none }

/-- An engine whose `run` raises. -/
def wafBroken : DDWaf :=
  { required_data := [Addresses.SERVER_REQUEST_METHOD],
    run := fun _ => Except.error (PyErr.exception "waf failure") }

/-- A processor in the hypothetical Disabled state: no engine. -/
def procDisabled : AppSecSpanProcessor :=
  { rules := "rules.json", ddwaf := none, addresses_to_keep := ∅ }

/-- A Ready processor around `wafMatchAll`. -/
def procMatch : AppSecSpanProcessor :=
  { rules := "rules.json", ddwaf := some wafMatchAll, addresses_to_keep := ∅ }

/-- A Ready processor around `wafNoMatch`. -/
def procNoMatch : AppSecSpanProcessor :=
  { rules := "rules.json", ddwaf := some wafNoMatch, addresses_to_keep := ∅ }

/-- A Ready processor around `wafBroken`. -/
def procBroken : AppSecSpanProcessor :=
  { rules := "rules.json", ddwaf := some wafBroken, addresses_to_keep := ∅ }

/-- A fresh WEB span. -/
def spanWeb : Span := { span_type := some "web" }

/-- A WEB span whose origin tag is already set. -/
def spanWebOrigin : Span :=
  { span_type := some "web", tags := [("_dd.origin", TagVal.str "rum")] }

/-- A span of a non-WEB type. -/
def spanCache : Span := { span_type := some "cache" }

/-- An opensearch span carrying one pre-call tag. -/
def spanOS : Span :=
  { span_type := some "opensearch", tags := [("opensearch.method", TagVal.str "GET")] }

/-- An empty context store. -/
def ctxEmpty : Ctx := {}

/-- A context store carrying response headers, among them the two headers the
response allow-list spells capitalized. -/
def ctxResp : Ctx :=
  { response_headers := some
      [("Content-Encoding", "gzip"), ("Content-Language", "en"),
       ("Content-Length", "5")] }

/-- A context store carrying request headers with a cookie and a repeated
name. -/
def ctxReq : Ctx :=
  { request_method := some "GET",
    request_headers := some
      [("Cookie", "a=b"), ("User-Agent", "x"), ("X-Forwarded-For", "1.2.3.4"),
       ("x-forwarded-for", "5.6.7.8")] }

end DdTracePy

namespace DdTracePy

/-! Dictionary lemmas. -/

theorem lookupAssoc_setItem_self {α : Type} (m : List (String × α)) (k : String) (v : α) :
    lookupAssoc (setItem m k v) k = some v := by
  induction m with
  | nil => simp [setItem, lookupAssoc]
  | cons p rest ih =>
      obtain ⟨k₀, v₀⟩ := p
      by_cases h0 : k₀ = k
      · subst h0; simp [setItem, lookupAssoc]
      · simp [setItem, lookupAssoc, h0, ih]

theorem lookupAssoc_setItem_ne {α : Type} (m : List (String × α)) (k k' : String) (v : α)
    (h : k' ≠ k) : lookupAssoc (setItem m k v) k' = lookupAssoc m k' := by
  induction m with
  | nil => simp [setItem, lookupAssoc, Ne.symm h]
  | cons p rest ih =>
      obtain ⟨k₀, v₀⟩ := p
      by_cases h0 : k₀ = k
      · subst h0; simp [setItem, lookupAssoc, Ne.symm h]
      · by_cases h1 : k₀ = k'
        · simp [setItem, lookupAssoc, h0, h1, h]
        · simp [setItem, lookupAssoc, h0, h1, ih]

theorem dictKeys_setItem_of_mem {α : Type} (m : List (String × α)) (k : String) (v : α)
    (h : k ∈ dictKeys m) : dictKeys (setItem m k v) = dictKeys m := by
  induction m with
  | nil => simp [dictKeys] at h
  | cons p rest ih =>
      obtain ⟨k₀, v₀⟩ := p
      by_cases h0 : k₀ = k
      · subst h0; simp [setItem, dictKeys]
      · have hmem : k ∈ dictKeys rest := by
          simp [dictKeys] at h
          rcases h with h1 | h1
          · exact absurd h1.symm h0
          · simpa [dictKeys] using h1
        have ih2 := ih hmem
        simp [setItem, dictKeys, h0] at ih2 ⊢
        exact ih2

theorem setItem_of_not_mem {α : Type} (m : List (String × α)) (k : String) (v : α)
    (h : k ∉ dictKeys m) : setItem m k v = m ++ [(k, v)] := by
  induction m with
  | nil => rfl
  | cons p rest ih =>
      obtain ⟨k₀, v₀⟩ := p
      have h0 : k₀ ≠ k := by
        intro hh
        exact h (by simp [dictKeys, hh])
      have h1 : k ∉ dictKeys rest := by
        intro hh
        apply h
        simp [dictKeys] at hh ⊢
        exact Or.inr hh
      simp [setItem, h0, ih h1]

theorem lookupAssoc_eq_none_iff {α : Type} (m : List (String × α)) (k : String) :
    lookupAssoc m k = none ↔ k ∉ dictKeys m := by
  induction m with
  | nil => simp [lookupAssoc, dictKeys]
  | cons p rest ih =>
      obtain ⟨k₀, v₀⟩ := p
      by_cases h0 : k₀ = k
      · subst h0; simp [lookupAssoc, dictKeys]
      · simp [lookupAssoc, dictKeys, h0, Ne.symm h0, ih]

theorem mem_of_lookupAssoc_some {α : Type} {m : List (String × α)} {k : String} {v : α}
    (h : lookupAssoc m k = some v) : k ∈ dictKeys m := by
  by_contra hm
  rw [(lookupAssoc_eq_none_iff m k).mpr hm] at h
  exact Option.noConfusion h

/-! Lower-casing lemmas. -/

theorem charOfNat_toNat_shift :
    ∀ n : Nat, n < 91 → 65 ≤ n → (Char.ofNat (n + 32)).toNat = n + 32 := by
  decide

theorem pyCharLower_idem (c : Char) : pyCharLower (pyCharLower c) = pyCharLower c := by
  by_cases h : 65 ≤ c.toNat ∧ c.toNat ≤ 90
  · have hv : (Char.ofNat (c.toNat + 32)).toNat = c.toNat + 32 :=
      charOfNat_toNat_shift c.toNat (by omega) h.1
    unfold pyCharLower
    rw [if_pos h, if_neg (by rw [hv]; omega)]
  · unfold pyCharLower
    rw [if_neg h, if_neg h]

theorem pyLower_idem (s : String) : pyLower (pyLower s) = pyLower s := by
  show String.mk ((s.data.map pyCharLower).map pyCharLower) = String.mk (s.data.map pyCharLower)
  rw [List.map_map]
  exact congrArg String.mk (List.map_congr_left (fun c _ => pyCharLower_idem c))

/-! `_transform_headers` lemmas. -/

theorem transformStep_cookie (m : List (String × HVal)) (header : String) (v : HVal)
    (h : pyLower header = "cookie" ∨ pyLower header = "set-cookie") :
    transformStep m header v = m := by
  simp [transformStep, h]

theorem lookupAssoc_transformStep_self (m : List (String × HVal)) (header : String) (v : HVal)
    (h : ¬(pyLower header = "cookie" ∨ pyLower header = "set-cookie")) :
    lookupAssoc (transformStep m header v) (pyLower header) =
      some (mergeVal (lookupAssoc m (pyLower header)) v) := by
  cases hl : lookupAssoc m (pyLower header) with
  | none => simp [transformStep, h, hl, mergeVal, lookupAssoc_setItem_self]
  | some w =>
      cases w with
      | str s => simp [transformStep, h, hl, mergeVal, lookupAssoc_setItem_self]
      | list xs => simp [transformStep, h, hl, mergeVal, lookupAssoc_setItem_self]

theorem lookupAssoc_transformStep_ne (m : List (String × HVal)) (header : String) (v : HVal)
    (k : String) (hne : pyLower header ≠ k) :
    lookupAssoc (transformStep m header v) k = lookupAssoc m k := by
  by_cases h : pyLower header = "cookie" ∨ pyLower header = "set-cookie"
  · rw [transformStep_cookie m header v h]
  · cases hl : lookupAssoc m (pyLower header) with
    | none => simp [transformStep, h, hl, lookupAssoc_setItem_ne _ _ _ _ (Ne.symm hne)]
    | some w =>
        cases w with
        | str s => simp [transformStep, h, hl, lookupAssoc_setItem_ne _ _ _ _ (Ne.symm hne)]
        | list xs => simp [transformStep, h, hl, lookupAssoc_setItem_ne _ _ _ _ (Ne.symm hne)]

theorem dictKeys_transformStep (m : List (String × HVal)) (header : String) (v : HVal) :
    dictKeys (transformStep m header v) = dictKeys m ∨
    (pyLower header ∉ dictKeys m ∧
      ¬(pyLower header = "cookie" ∨ pyLower header = "set-cookie") ∧
      dictKeys (transformStep m header v) = dictKeys m ++ [pyLower header]) := by
  by_cases h : pyLower header = "cookie" ∨ pyLower header = "set-cookie"
  · left; rw [transformStep_cookie m header v h]
  · cases hl : lookupAssoc m (pyLower header) with
    | none =>
        right
        have hnm : pyLower header ∉ dictKeys m := (lookupAssoc_eq_none_iff m _).mp hl
        refine ⟨hnm, h, ?_⟩
        simp [transformStep, h, hl, setItem_of_not_mem m _ _ hnm, dictKeys]
    | some w =>
        left
        have hm : pyLower header ∈ dictKeys m := mem_of_lookupAssoc_some hl
        cases w with
        | str s => simp [transformStep, h, hl, dictKeys_setItem_of_mem m _ _ hm]
        | list xs => simp [transformStep, h, hl, dictKeys_setItem_of_mem m _ _ hm]

theorem transform_fold_good (data : List (String × HVal)) :
    ∀ acc : List (String × HVal),
      (dictKeys acc).Nodup → (∀ k ∈ dictKeys acc, goodKey k) →
      (dictKeys (data.foldl (fun m p => transformStep m p.1 p.2) acc)).Nodup ∧
      (∀ k ∈ dictKeys (data.foldl (fun m p => transformStep m p.1 p.2) acc), goodKey k) := by
  induction data with
  | nil => intro acc h1 h2; exact ⟨h1, h2⟩
  | cons p rest ih =>
      intro acc h1 h2
      rcases dictKeys_transformStep acc p.1 p.2 with hk | ⟨hnm, hc, hk⟩
      · exact ih (transformStep acc p.1 p.2) (hk ▸ h1) (hk ▸ h2)
      · apply ih (transformStep acc p.1 p.2)

        · rw [hk]
          simp [List.nodup_append, h1]
          intro hmem
          exact hnm hmem
        · rw [hk]
          intro k hkmem
          rcases List.mem_append.mp hkmem with hmem | hmem
          · exact h2 k hmem
          · have : k = pyLower p.1 := by simpa using hmem
            subst this
            push_neg at hc
            exact ⟨pyLower_idem p.1, hc.1, hc.2⟩

theorem transform_fold_lookup (data : List (String × HVal)) (k : String)
    (hk1 : k ≠ "cookie") (hk2 : k ≠ "set-cookie") :
    ∀ acc : List (String × HVal),
      lookupAssoc (data.foldl (fun m p => transformStep m p.1 p.2) acc) k =
        mergeAll (lookupAssoc acc k) (valuesFor k data) := by
  induction data with
  | nil => intro acc; rfl
  | cons p rest ih =>
      intro acc
      by_cases hc : pyLower p.1 = k
      · have hno : ¬(pyLower p.1 = "cookie" ∨ pyLower p.1 = "set-cookie") := by
          rw [hc]
          rintro (h | h)
          · exact hk1 h
          · exact hk2 h
        have hstep := lookupAssoc_transformStep_self acc p.1 p.2 hno
        rw [hc] at hstep
        show lookupAssoc (rest.foldl _ (transformStep acc p.1 p.2)) k = _
        rw [ih (transformStep acc p.1 p.2), hstep]
        have hv : valuesFor k ((p :: rest) : List (String × HVal)) = p.2 :: valuesFor k rest := by
          simp [valuesFor, hc]
        rw [hv]
        rfl
      · have hstep := lookupAssoc_transformStep_ne acc p.1 p.2 k hc
        show lookupAssoc (rest.foldl _ (transformStep acc p.1 p.2)) k = _
        rw [ih (transformStep acc p.1 p.2), hstep]
        have hv : valuesFor k ((p :: rest) : List (String × HVal)) = valuesFor k rest := by
          simp [valuesFor, hc]
        rw [hv]

theorem mergeAll_list (xs : List HVal) (vs : List HVal) :
    mergeAll (some (HVal.list xs)) vs = some (HVal.list (xs ++ vs)) := by
  induction vs generalizing xs with
  | nil => simp [mergeAll]
  | cons v rest ih =>
      show mergeAll (some (mergeVal (some (HVal.list xs)) v)) rest = _
      rw [show mergeVal (some (HVal.list xs)) v = HVal.list (xs ++ [v]) from rfl, ih]
      simp

theorem transform_fold_eq_append (m : List (String × HVal)) :
    ∀ acc : List (String × HVal),
      (dictKeys (acc ++ m)).Nodup → (∀ p ∈ m, goodKey p.1) →
      m.foldl (fun n p => transformStep n p.1 p.2) acc = acc ++ m := by
  induction m with
  | nil => intro acc _ _; simp
  | cons p rest ih =>
      intro acc hnd hgood
      obtain ⟨hfix, hc1, hc2⟩ := hgood p (List.mem_cons_self p rest)
      have hkeys : dictKeys (acc ++ p :: rest) = dictKeys acc ++ p.1 :: dictKeys rest := by
        simp [dictKeys]
      have hnacc : p.1 ∉ dictKeys acc := by
        rw [hkeys] at hnd
        rcases List.nodup_append.mp hnd with ⟨-, -, hdisj⟩
        intro hmem
        exact hdisj hmem (List.mem_cons_self p.1 (dictKeys rest))
      have hno : ¬(pyLower p.1 = "cookie" ∨ pyLower p.1 = "set-cookie") := by
        rw [hfix]
        rintro (h | h)
        · exact hc1 h
        · exact hc2 h
      have hstep : transformStep acc p.1 p.2 = acc ++ [p] := by
        have hlook : lookupAssoc acc p.1 = none :=
          (lookupAssoc_eq_none_iff acc p.1).mpr hnacc
        have hno2 : ¬(p.1 = "cookie" ∨ p.1 = "set-cookie") := by
          rintro (h | h)
          · exact hc1 h
          · exact hc2 h
        simp [transformStep, hfix, hno2, hlook, setItem_of_not_mem acc p.1 p.2 hnacc]
      show rest.foldl _ (transformStep acc p.1 p.2) = _
      rw [hstep, ih (acc ++ [p]) (by simpa using hnd) (fun q hq => hgood q (List.mem_cons_of_mem p hq))]
      simp

theorem valuesFor_rawHeaders_str (k : String) (data : List (String × String)) :
    ∀ v ∈ valuesFor k (rawHeaders data), ∃ s, v = HVal.str s := by
  intro v hv
  unfold valuesFor at hv
  rcases List.mem_map.mp hv with ⟨p, hp, rfl⟩
  have hp2 := List.mem_of_mem_filter hp
  unfold rawHeaders at hp2
  rcases List.mem_map.mp hp2 with ⟨q, _, rfl⟩
  exact ⟨q.2, rfl⟩

theorem transform_headers_good (data : List (String × HVal)) :
    (dictKeys (transform_headers data)).Nodup ∧
    ∀ k ∈ dictKeys (transform_headers data), goodKey k :=
  transform_fold_good data [] (by simp [dictKeys]) (by simp [dictKeys])

/-- Claim C1: for every raw header map, the output of `_transform_headers`
never contains a key equal to `cookie` or `set-cookie` after lower-casing:
redaction is unconditional. -/
theorem transform_headers_never_cookie (data : List (String × String)) :
    ∀ p ∈ transform_headers (rawHeaders data),
      pyLower p.1 ≠ "cookie" ∧ pyLower p.1 ≠ "set-cookie" := by
  intro p hp
  obtain ⟨hfix, h1, h2⟩ :=
    (transform_headers_good (rawHeaders data)).2 p.1 (List.mem_map_of_mem Prod.fst hp)
  rw [hfix]
  exact ⟨h1, h2⟩

/-- Witness for C1 at the concrete map of end-to-end scenario A. -/
theorem transform_headers_never_cookie_witness :
    pyLower ("user-agent", HVal.str "x").1 ≠ "cookie" ∧
    pyLower ("user-agent", HVal.str "x").1 ≠ "set-cookie" :=
  transform_headers_never_cookie [("Cookie", "a=b"), ("User-Agent", "x")]
    ("user-agent", HVal.str "x") (List.Mem.head _)

/-- Claim C6: `_transform_headers` is idempotent — applying it to its own
output redacts nothing further and re-merges without change. -/
theorem transform_headers_idempotent (h : List (String × String)) :
    transform_headers (transform_headers (rawHeaders h)) =
      transform_headers (rawHeaders h) := by
  obtain ⟨hnd, hgood⟩ := transform_headers_good (rawHeaders h)
  have hres := transform_fold_eq_append (transform_headers (rawHeaders h)) []
    (by simpa using hnd)
    (fun p hp => hgood p.1 (List.mem_map_of_mem Prod.fst hp))
  simpa using hres

/-- Claim C8 counterexample: the raw map with entries `Cookie` and `COOKIE`
has a repeated header name (the two names agree after lower-casing, with two
values), yet the normalized map contains no entry at all for that name —
not one entry holding the value list. -/
theorem repeated_cookie_header_dropped :
    pyLower "Cookie" = pyLower "COOKIE" ∧
    (valuesFor "cookie" (rawHeaders [("Cookie", "a"), ("COOKIE", "b")])).length = 2 ∧
    (dictKeys (transform_headers (rawHeaders [("Cookie", "a"), ("COOKIE", "b")]))).count
      "cookie" = 0 ∧
    lookupAssoc (transform_headers (rawHeaders [("Cookie", "a"), ("COOKIE", "b")]))
      "cookie" = none :=
  ⟨rfl, rfl, rfl, rfl⟩

/-- Claim C8 (amended): for every raw header map with a repeated header name
whose lower-cased form is not `cookie` or `set-cookie`, the normalized map
contains exactly one entry for that name, and its value is the ordered list
of all the values in their order of appearance in the input. -/
theorem repeated_header_merged_once (data : List (String × String)) (k : String)
    (hk1 : k ≠ "cookie") (hk2 : k ≠ "set-cookie")
    (h2 : 2 ≤ (valuesFor k (rawHeaders data)).length) :
    (dictKeys (transform_headers (rawHeaders data))).count k = 1 ∧
    lookupAssoc (transform_headers (rawHeaders data)) k =
      some (HVal.list (valuesFor k (rawHeaders data))) := by
  have hlook := transform_fold_lookup (rawHeaders data) k hk1 hk2 []
  have hstr := valuesFor_rawHeaders_str k data
  have hmerge : mergeAll (lookupAssoc ([] : List (String × HVal)) k)
      (valuesFor k (rawHeaders data)) =
      some (HVal.list (valuesFor k (rawHeaders data))) := by
    rcases hvs : valuesFor k (rawHeaders data) with _ | ⟨v₁, vs'⟩
    · rw [hvs] at h2; simp at h2
    · rcases vs' with _ | ⟨v₂, rest⟩
      · rw [hvs] at h2; simp at h2
      · obtain ⟨s, rfl⟩ := hstr v₁ (by rw [hvs]; exact List.Mem.head _)
        show mergeAll (some (mergeVal (some (mergeVal none (HVal.str s))) v₂)) rest = _
        rw [show mergeVal (some (mergeVal none (HVal.str s))) v₂ =
          HVal.list [HVal.str s, v₂] from rfl, mergeAll_list]
        rfl
  have hfinal : lookupAssoc (transform_headers (rawHeaders data)) k =
      some (HVal.list (valuesFor k (rawHeaders data))) := by
    rw [show lookupAssoc (transform_headers (rawHeaders data)) k =
      mergeAll (lookupAssoc ([] : List (String × HVal)) k)
        (valuesFor k (rawHeaders data)) from hlook, hmerge]
  refine ⟨?_, hfinal⟩
  exact List.count_eq_one_of_mem (transform_headers_good (rawHeaders data)).1
    (mem_of_lookupAssoc_some hfinal)

/-! Span and tag-projection frame lemmas. -/

theorem get_tag_set_tag_self (s : Span) (k : String) (v : TagVal) :
    (s.set_tag k v).get_tag k = some v :=
  lookupAssoc_setItem_self s.tags k v

theorem get_tag_set_tag_ne (s : Span) (k k' : String) (v : TagVal) (h : k' ≠ k) :
    (s.set_tag k v).get_tag k' = s.get_tag k' :=
  lookupAssoc_setItem_ne s.tags k k' v h

theorem set_tag_metrics (s : Span) (k : String) (v : TagVal) :
    (s.set_tag k v).metrics = s.metrics := rfl

theorem set_str_tag_metrics (s : Span) (k v : String) :
    (s.set_str_tag k v).metrics = s.metrics := rfl

theorem set_metric_get_tag (s : Span) (k : String) (v : Rat) (k' : String) :
    (s.set_metric k v).get_tag k' = s.get_tag k' := rfl

theorem set_headers_cons (sp : Span) (kind : String) (tc : List String)
    (p : String × HVal) (rest : List (String × HVal)) :
    set_headers sp kind tc (p :: rest) =
      set_headers
        (if pyLower p.1 ∈ tc then
          sp.set_tag (normalize_tag_name kind p.1) (TagVal.ofHVal p.2)
        else sp) kind tc rest := rfl

theorem set_headers_metrics (kind : String) (tc : List String)
    (hs : List (String × HVal)) :
    ∀ sp : Span, (set_headers sp kind tc hs).metrics = sp.metrics := by
  induction hs with
  | nil => intro sp; rfl
  | cons p rest ih =>
      intro sp
      rw [set_headers_cons, ih]
      by_cases h : pyLower p.1 ∈ tc
      · rw [if_pos h, set_tag_metrics]
      · rw [if_neg h]

theorem set_headers_get_tag_ne (kind : String) (tc : List String)
    (hs : List (String × HVal)) (k : String)
    (hne : ∀ name : String, normalize_tag_name kind name ≠ k) :
    ∀ sp : Span, (set_headers sp kind tc hs).get_tag k = sp.get_tag k := by
  induction hs with
  | nil => intro sp; rfl
  | cons p rest ih =>
      intro sp
      rw [set_headers_cons, ih]
      by_cases h : pyLower p.1 ∈ tc
      · rw [if_pos h, get_tag_set_tag_ne _ _ _ _ (Ne.symm (hne p.1))]
      · rw [if_neg h]

theorem normalize_tag_name_ne (kind name t : String) (c : Char) (l : List Char)
    (hk : kind.data = c :: l) (ht : t.data.head? ≠ some c) :
    normalize_tag_name kind name ≠ t := by
  intro h
  apply ht
  rw [← h]
  show (kind ++ ".headers." ++ pyLower name).data.head? = some c
  rw [String.data_append, String.data_append, hk]
  rfl

theorem preOriginSpan_metrics (sp : Span) (rh oh : Option (List (String × HVal)))
    (res : String) : (preOriginSpan sp rh oh res).metrics = sp.metrics := by
  unfold preOriginSpan
  cases rh <;> cases oh <;>
    simp [Span.set_str_tag, set_tag_metrics, set_headers_metrics]

theorem preOriginSpan_get_tag_ne (sp : Span) (rh oh : Option (List (String × HVal)))
    (res k : String) (hr : k.data.head? ≠ some 'r')
    (h1 : k ≠ "appsec.event") (h2 : k ≠ "_dd.appsec.json") (h3 : k ≠ MANUAL_KEEP_KEY) :
    (preOriginSpan sp rh oh res).get_tag k = sp.get_tag k := by
  have hreq : ∀ name : String, normalize_tag_name "request" name ≠ k := fun name =>
    normalize_tag_name_ne "request" name k 'r' "equest".data rfl hr
  have hresp : ∀ name : String, normalize_tag_name "response" name ≠ k := fun name =>
    normalize_tag_name_ne "response" name k 'r' "esponse".data rfl hr
  unfold preOriginSpan
  cases rh <;> cases oh <;>
    simp [Span.set_str_tag, get_tag_set_tag_ne _ _ _ _ h1, get_tag_set_tag_ne _ _ _ _ h2,
      get_tag_set_tag_ne _ _ _ _ h3, set_headers_get_tag_ne _ _ _ _ hreq,
      set_headers_get_tag_ne _ _ _ _ hresp]

theorem matchedSpan_metrics (sp : Span) (rh oh : Option (List (String × HVal)))
    (res : String) : (matchedSpan sp rh oh res).metrics = sp.metrics := by
  unfold matchedSpan
  by_cases ho : ((preOriginSpan sp rh oh res).get_tag ORIGIN_KEY).isNone
  · rw [if_pos ho, set_str_tag_metrics, preOriginSpan_metrics]
  · rw [if_neg ho, preOriginSpan_metrics]

theorem matchedSpan_get_tag_ne (sp : Span) (rh oh : Option (List (String × HVal)))
    (res k : String) (hr : k.data.head? ≠ some 'r')
    (h1 : k ≠ "appsec.event") (h2 : k ≠ "_dd.appsec.json") (h3 : k ≠ MANUAL_KEEP_KEY)
    (h4 : k ≠ ORIGIN_KEY) :
    (matchedSpan sp rh oh res).get_tag k = sp.get_tag k := by
  unfold matchedSpan
  by_cases ho : ((preOriginSpan sp rh oh res).get_tag ORIGIN_KEY).isNone
  · rw [if_pos ho, Span.set_str_tag, get_tag_set_tag_ne _ _ _ _ h4,
      preOriginSpan_get_tag_ne sp rh oh res k hr h1 h2 h3]
  · rw [if_neg ho, preOriginSpan_get_tag_ne sp rh oh res k hr h1 h2 h3]

theorem matchedSpan_origin (sp : Span) (rh oh : Option (List (String × HVal)))
    (res : String) :
    (matchedSpan sp rh oh res).get_tag ORIGIN_KEY =
      some ((sp.get_tag ORIGIN_KEY).getD (TagVal.str "appsec")) := by
  have hpre : (preOriginSpan sp rh oh res).get_tag ORIGIN_KEY = sp.get_tag ORIGIN_KEY :=
    preOriginSpan_get_tag_ne sp rh oh res ORIGIN_KEY (by decide) (by decide) (by decide)
      (by decide)
  unfold matchedSpan
  cases hso : sp.get_tag ORIGIN_KEY with
  | none =>
      rw [if_pos (by rw [hpre, hso]; rfl), Span.set_str_tag, get_tag_set_tag_self]
      rfl
  | some v =>
      rw [if_neg (by rw [hpre, hso]; simp), hpre, hso]
      rfl

theorem baselineSpan_get_tag_ne (span : Span) (k : String)
    (h : k ≠ "_dd.runtime_family") :
    (baselineSpan span).get_tag k = span.get_tag k := by
  unfold baselineSpan
  rw [Span.set_str_tag, get_tag_set_tag_ne _ _ _ _ h, set_metric_get_tag]

theorem baselineSpan_enabled_metric (span : Span) :
    lookupAssoc (baselineSpan span).metrics "_dd.appsec.enabled" = some 1 :=
  lookupAssoc_setItem_self span.metrics "_dd.appsec.enabled" 1

theorem baselineSpan_runtime_tag (span : Span) :
    (baselineSpan span).get_tag "_dd.runtime_family" = some (TagVal.str "python") :=
  get_tag_set_tag_self _ _ _

/-! `on_span_finish` unfolding lemmas. -/

theorem on_span_finish_non_web (p : AppSecSpanProcessor) (ctx : Ctx) (span : Span)
    (h : span.span_type ≠ some WEB) : on_span_finish p ctx span = (span, none) := by
  unfold on_span_finish
  rw [if_neg h]

theorem on_span_finish_disabled_web (p : AppSecSpanProcessor) (ctx : Ctx) (span : Span)
    (hw : p.ddwaf = none) (hweb : span.span_type = some WEB) :
    on_span_finish p ctx span = (baselineSpan span, some PyErr.attributeError) := by
  unfold on_span_finish
  rw [if_pos hweb, hw]

theorem on_span_finish_run (p : AppSecSpanProcessor) (ctx : Ctx) (span : Span) (w : DDWaf)
    (hw : p.ddwaf = some w) (hweb : span.span_type = some WEB) :
    on_span_finish p ctx span =
      (match w.run (buildData p ctx) with
       | Except.error e => (baselineSpan span, some e)
       | Except.ok none => (baselineSpan span, none)
       | Except.ok (some res) =>
           (matchedSpan (baselineSpan span) (normalizedRequestHeaders ctx)
             (normalizedResponseHeaders ctx) res, none)) := by
  unfold on_span_finish
  rw [if_pos hweb, hw]

/-! Initialization lemmas. -/

theorem mark_needed_ddwaf (p : AppSecSpanProcessor) (a : String) :
    (p.mark_needed a).ddwaf = p.ddwaf := rfl

theorem foldl_mark_needed_ddwaf (l : List String) :
    ∀ q : AppSecSpanProcessor,
      (l.foldl (fun r a => r.mark_needed a) q).ddwaf = q.ddwaf := by
  induction l with
  | nil => intro q; rfl
  | cons a rest ih =>
      intro q
      rw [List.foldl_cons, ih, mark_needed_ddwaf]

theorem finish_init_ddwaf (p : AppSecSpanProcessor) (w : DDWaf) :
    (finish_init p w).ddwaf = some w := by
  unfold finish_init
  rw [mark_needed_ddwaf, foldl_mark_needed_ddwaf]

theorem attrs_post_init_ok (p p' : AppSecSpanProcessor) (loadRules : Except PyErr String)
    (ddwafNew : String → Except PyErr DDWaf)
    (h : attrs_post_init p loadRules ddwafNew = Except.ok p') :
    ∃ w : DDWaf, p' = finish_init p w := by
  unfold attrs_post_init at h
  cases hq : p.ddwaf with
  | some w =>
      rw [hq] at h
      exact ⟨w, (Except.ok.injEq _ _).mp h |>.symm⟩
  | none =>
      rw [hq] at h
      cases hl : loadRules with
      | error e => rw [hl] at h; simp [Bind.bind, Except.bind] at h
      | ok rules =>
          rw [hl] at h
          simp only [Bind.bind, Except.bind] at h
          cases hd : ddwafNew rules with
          | error e => rw [hd] at h; simp [Except.bind] at h
          | ok w =>
              rw [hd] at h
              simp [Except.bind] at h
              exact ⟨w, h.symm⟩

/-- Witness for C8 (amended) at a concrete map repeating `X-Forwarded-For`
with different casing. -/
theorem repeated_header_merged_once_witness :
    (dictKeys (transform_headers (rawHeaders
      [("X-Forwarded-For", "1"), ("Host", "h"), ("x-forwarded-for", "2")]))).count
      "x-forwarded-for" = 1 ∧
    lookupAssoc (transform_headers (rawHeaders
      [("X-Forwarded-For", "1"), ("Host", "h"), ("x-forwarded-for", "2")]))
      "x-forwarded-for" =
      some (HVal.list (valuesFor "x-forwarded-for" (rawHeaders
        [("X-Forwarded-For", "1"), ("Host", "h"), ("x-forwarded-for", "2")]))) :=
  repeated_header_merged_once
    [("X-Forwarded-For", "1"), ("Host", "h"), ("x-forwarded-for", "2")]
    "x-forwarded-for" (by decide) (by decide) (by decide)

/-- Claim C2 (code bug): on a match with normalized response headers
`Content-Encoding: gzip`, `Content-Language: en`, `Content-Length: 5`, the
span receives a projected tag only for `content-length`.  The final tag store
is computed exactly: no tag for `content-encoding` or `content-language`
exists, because `_COLLECTED_RESPONSE_HEADERS` spells those two entries
capitalized while membership is tested against the lower-cased header name. -/
theorem response_header_allowlist_case_mismatch :
    (on_span_finish procMatch ctxResp spanWeb).1.tags =
      [("_dd.runtime_family", TagVal.str "python"),
       ("response.headers.content-length", TagVal.ofHVal (HVal.str "5")),
       ("appsec.event", TagVal.str "true"),
       ("_dd.appsec.json", TagVal.str "\x7b\"triggers\":[]\x7d"),
       ("manual.keep", TagVal.null),
       ("_dd.origin", TagVal.str "appsec")] ∧
    (on_span_finish procMatch ctxResp spanWeb).1.get_tag
      "response.headers.content-encoding" = none ∧
    (on_span_finish procMatch ctxResp spanWeb).1.get_tag
      "response.headers.content-language" = none ∧
    pyLower "Content-Encoding" ∈ COLLECTED_REQUEST_HEADERS ∧
    pyLower "Content-Encoding" ∉ COLLECTED_RESPONSE_HEADERS ∧
    pyLower "Content-Language" ∉ COLLECTED_RESPONSE_HEADERS :=
  ⟨rfl, rfl, rfl, by decide, by decide, by decide⟩

/-- Claim C3 counterexample: a processor whose `_ddwaf` is `None` is not a
no-op on a WEB span — it writes the baseline metric and tag onto the span
(which started with empty tag and metric stores) and raises
`AttributeError` when it reaches `self._ddwaf.run`. -/
theorem disabled_web_span_writes_and_raises :
    (on_span_finish procDisabled ctxEmpty spanWeb).2 = some PyErr.attributeError ∧
    (on_span_finish procDisabled ctxEmpty spanWeb).1.tags =
      [("_dd.runtime_family", TagVal.str "python")] ∧
    (on_span_finish procDisabled ctxEmpty spanWeb).1.metrics =
      [("_dd.appsec.enabled", 1)] ∧
    spanWeb.tags = [] ∧ spanWeb.metrics = [] :=
  ⟨rfl, rfl, rfl, rfl, rfl⟩

/-- Claim C3 (amended): with no engine instance (`_ddwaf = None`),
`on_span_finish` is a no-op — no tag or metric writes and no error — for
every span that is not a WEB span; on a WEB span it applies the baseline
telemetry and then raises `AttributeError` at the engine call.  Moreover this
state is unreachable through initialization: whenever `__attrs_post_init__`
returns successfully, the processor holds an engine. -/
theorem disabled_processor_behavior (p : AppSecSpanProcessor) (ctx : Ctx) (span : Span)
    (hw : p.ddwaf = none) :
    (span.span_type ≠ some WEB → on_span_finish p ctx span = (span, none)) ∧
    (span.span_type = some WEB →
      on_span_finish p ctx span = (baselineSpan span, some PyErr.attributeError)) ∧
    (∀ (q q' : AppSecSpanProcessor) (loadRules : Except PyErr String)
        (ddwafNew : String → Except PyErr DDWaf),
      attrs_post_init q loadRules ddwafNew = Except.ok q' → q'.ddwaf.isSome) := by
  refine ⟨?_, ?_, ?_⟩
  · intro h
    exact on_span_finish_non_web p ctx span h
  · intro h
    exact on_span_finish_disabled_web p ctx span hw h
  · intro q q' loadRules ddwafNew h
    obtain ⟨w, rfl⟩ := attrs_post_init_ok q q' loadRules ddwafNew h
    rw [Option.isSome_iff_exists]
    exact ⟨w, finish_init_ddwaf q w⟩

/-- Witness for C3 (amended): a disabled processor leaves a cache span alone,
writes baseline telemetry and raises on a WEB span, and a successful
initialization yields an engine. -/
theorem disabled_processor_behavior_witness :
    on_span_finish procDisabled ctxEmpty spanCache = (spanCache, none) ∧
    on_span_finish procDisabled ctxEmpty spanWeb =
      (baselineSpan spanWeb, some PyErr.attributeError) ∧
    (finish_init procDisabled wafNoMatch).ddwaf.isSome := by
  have h1 := disabled_processor_behavior procDisabled ctxEmpty spanCache rfl
  have h2 := disabled_processor_behavior procDisabled ctxEmpty spanWeb rfl
  refine ⟨h1.1 (by decide), h2.2.1 rfl, ?_⟩
  exact h2.2.2 procDisabled (finish_init procDisabled wafNoMatch) (Except.ok "rules")
    (fun _ => Except.ok wafNoMatch) rfl

/-- Claim C4: when `run` returns a result on a WEB span, an origin tag that
was already set to `V` is still `V` afterwards, and an unset origin tag
becomes the fixed value `appsec`. -/
theorem origin_tag_preserved_or_set (p : AppSecSpanProcessor) (ctx : Ctx) (span : Span)
    (w : DDWaf) (res : String) (hw : p.ddwaf = some w)
    (hweb : span.span_type = some WEB)
    (hrun : w.run (buildData p ctx) = Except.ok (some res)) :
    (∀ V : TagVal, span.get_tag ORIGIN_KEY = some V →
      (on_span_finish p ctx span).1.get_tag ORIGIN_KEY = some V) ∧
    (span.get_tag ORIGIN_KEY = none →
      (on_span_finish p ctx span).1.get_tag ORIGIN_KEY = some (TagVal.str "appsec")) := by
  have hfin := on_span_finish_run p ctx span w hw hweb
  rw [hrun] at hfin
  constructor
  · intro V hV
    rw [hfin]
    show (matchedSpan (baselineSpan span) (normalizedRequestHeaders ctx)
      (normalizedResponseHeaders ctx) res).get_tag ORIGIN_KEY = some V
    rw [matchedSpan_origin, baselineSpan_get_tag_ne span ORIGIN_KEY (by decide), hV]
    rfl
  · intro hnone
    rw [hfin]
    show (matchedSpan (baselineSpan span) (normalizedRequestHeaders ctx)
      (normalizedResponseHeaders ctx) res).get_tag ORIGIN_KEY = some (TagVal.str "appsec")
    rw [matchedSpan_origin, baselineSpan_get_tag_ne span ORIGIN_KEY (by decide), hnone]
    rfl

/-- Witness for C4: a span with origin `rum` keeps it; a span without an
origin gets `appsec`. -/
theorem origin_tag_preserved_or_set_witness :
    (on_span_finish procMatch ctxReq spanWebOrigin).1.get_tag ORIGIN_KEY =
      some (TagVal.str "rum") ∧
    (on_span_finish procMatch ctxReq spanWeb).1.get_tag ORIGIN_KEY =
      some (TagVal.str "appsec") := by
  have h1 := origin_tag_preserved_or_set procMatch ctxReq spanWebOrigin wafMatchAll "[]"
    rfl rfl rfl
  have h2 := origin_tag_preserved_or_set procMatch ctxReq spanWeb wafMatchAll "[]"
    rfl rfl rfl
  exact ⟨h1.1 (TagVal.str "rum") rfl, h2.2 rfl⟩

/-- Claim C5: every WEB span processed by a Ready processor carries the
detection-enabled metric (value 1.0) and the runtime-family tag whatever
`run` returns; and when `run` returns no result, the final span is exactly
the baseline span — no event tag, no serialized-result tag, no retention
override, no projected header tags. -/
theorem baseline_telemetry_and_no_match_frame (p : AppSecSpanProcessor) (ctx : Ctx)
    (span : Span) (w : DDWaf) (hw : p.ddwaf = some w)
    (hweb : span.span_type = some WEB) :
    (∀ r : Option String, w.run (buildData p ctx) = Except.ok r →
      lookupAssoc (on_span_finish p ctx span).1.metrics "_dd.appsec.enabled" = some 1 ∧
      (on_span_finish p ctx span).1.get_tag "_dd.runtime_family" =
        some (TagVal.str "python")) ∧
    (w.run (buildData p ctx) = Except.ok none →
      on_span_finish p ctx span = (baselineSpan span, none)) := by
  have hfin := on_span_finish_run p ctx span w hw hweb
  constructor
  · rintro (_ | res) hrun
    · rw [hrun] at hfin
      rw [hfin]
      exact ⟨baselineSpan_enabled_metric span, baselineSpan_runtime_tag span⟩
    · rw [hrun] at hfin
      rw [hfin]
      constructor
      · show lookupAssoc (matchedSpan (baselineSpan span) (normalizedRequestHeaders ctx)
          (normalizedResponseHeaders ctx) res).metrics "_dd.appsec.enabled" = some 1
        rw [matchedSpan_metrics]
        exact baselineSpan_enabled_metric span
      · show (matchedSpan (baselineSpan span) (normalizedRequestHeaders ctx)
          (normalizedResponseHeaders ctx) res).get_tag "_dd.runtime_family" =
            some (TagVal.str "python")
        rw [matchedSpan_get_tag_ne _ _ _ _ _ (by decide) (by decide) (by decide)
          (by decide) (by decide)]
        exact baselineSpan_runtime_tag span
  · intro hrun
    rw [hrun] at hfin
    exact hfin

/-- Witness for C5: a no-match engine leaves exactly the baseline span; a
matching engine still shows the baseline metric and tag. -/
theorem baseline_telemetry_and_no_match_frame_witness :
    (lookupAssoc (on_span_finish procNoMatch ctxReq spanWeb).1.metrics
      "_dd.appsec.enabled" = some 1 ∧
     (on_span_finish procNoMatch ctxReq spanWeb).1.get_tag "_dd.runtime_family" =
      some (TagVal.str "python")) ∧
    on_span_finish procNoMatch ctxReq spanWeb = (baselineSpan spanWeb, none) ∧
    (on_span_finish procMatch ctxReq spanWeb).1.get_tag "_dd.runtime_family" =
      some (TagVal.str "python") := by
  have h1 := baseline_telemetry_and_no_match_frame procNoMatch ctxReq spanWeb wafNoMatch
    rfl rfl
  have h2 := baseline_telemetry_and_no_match_frame procMatch ctxReq spanWeb wafMatchAll
    rfl rfl
  exact ⟨h1.1 none rfl, h1.2 rfl, (h2.1 (some "[]") rfl).2⟩

/-- Claim C7: after a successful `__attrs_post_init__`, the address registry
contains the baseline request-headers address whatever the engine required;
marking an address needed is idempotent, and marking only grows the set. -/
theorem address_registry_baseline_and_monotone (p p' : AppSecSpanProcessor)
    (loadRules : Except PyErr String) (ddwafNew : String → Except PyErr DDWaf)
    (h : attrs_post_init p loadRules ddwafNew = Except.ok p') :
    Addresses.SERVER_REQUEST_HEADERS_NO_COOKIES ∈ p'.addresses_to_keep ∧
    (∀ (q : AppSecSpanProcessor) (a : String),
      (q.mark_needed a).mark_needed a = q.mark_needed a) ∧
    (∀ (q : AppSecSpanProcessor) (a : String),
      q.addresses_to_keep ⊆ (q.mark_needed a).addresses_to_keep) := by
  refine ⟨?_, ?_, ?_⟩
  · obtain ⟨w, rfl⟩ := attrs_post_init_ok p p' loadRules ddwafNew h
    show Addresses.SERVER_REQUEST_HEADERS_NO_COOKIES ∈
      (AppSecSpanProcessor.mark_needed _ Addresses.SERVER_REQUEST_HEADERS_NO_COOKIES
        ).addresses_to_keep
    exact Finset.mem_insert_self _ _
  · intro q a
    show ({ q with addresses_to_keep := insert a (insert a q.addresses_to_keep) } :
        AppSecSpanProcessor) =
      { q with addresses_to_keep := insert a q.addresses_to_keep }
    rw [Finset.insert_idem]
  · intro q a
    exact Finset.subset_insert a q.addresses_to_keep

/-- Witness for C7 on a concrete initialization whose engine requires one
address. -/
theorem address_registry_baseline_and_monotone_witness :
    Addresses.SERVER_REQUEST_HEADERS_NO_COOKIES ∈
      (finish_init procDisabled wafBroken).addresses_to_keep ∧
    (procDisabled.mark_needed "server.request.body").mark_needed "server.request.body" =
      procDisabled.mark_needed "server.request.body" ∧
    procDisabled.addresses_to_keep ⊆
      (procDisabled.mark_needed "server.request.body").addresses_to_keep := by
  have h := address_registry_baseline_and_monotone procDisabled
    (finish_init procDisabled wafBroken) (Except.ok "rules")
    (fun _ => Except.ok wafBroken) rfl
  exact ⟨h.1, h.2.1 procDisabled "server.request.body",
    h.2.2 procDisabled "server.request.body"⟩

/-- Claim C10: when `run` raises on a WEB span of a Ready processor, the
exception propagates uncaught, and the span already carries the
detection-enabled metric and the runtime-family tag applied before the
engine call (and nothing is rolled back). -/
theorem waf_error_propagates_after_baseline (p : AppSecSpanProcessor) (ctx : Ctx)
    (span : Span) (w : DDWaf) (e : PyErr) (hw : p.ddwaf = some w)
    (hweb : span.span_type = some WEB)
    (hrun : w.run (buildData p ctx) = Except.error e) :
    on_span_finish p ctx span = (baselineSpan span, some e) ∧
    lookupAssoc (baselineSpan span).metrics "_dd.appsec.enabled" = some 1 ∧
    (baselineSpan span).get_tag "_dd.runtime_family" = some (TagVal.str "python") := by
  have hfin := on_span_finish_run p ctx span w hw hweb
  rw [hrun] at hfin
  exact ⟨hfin, baselineSpan_enabled_metric span, baselineSpan_runtime_tag span⟩

/-- Witness for C10 with a concrete engine whose `run` raises. -/
theorem waf_error_propagates_after_baseline_witness :
    on_span_finish procBroken ctxReq spanWeb =
      (baselineSpan spanWeb, some (PyErr.exception "waf failure")) ∧
    lookupAssoc (baselineSpan spanWeb).metrics "_dd.appsec.enabled" = some 1 := by
  have h := waf_error_propagates_after_baseline procBroken ctxReq spanWeb wafBroken
    (PyErr.exception "waf failure") rfl rfl rfl
  exact ⟨h.1, h.2.1⟩

/-- Claim C9: once the wrapped opensearch call has succeeded, a failure
inside the optional took-extraction block is fully swallowed: the outcome is
the same as when no `took` metadata exists, the successful result is still
returned to the caller, the metric store is untouched, and every tag other
than the post-extraction status tag is exactly as before. -/
theorem opensearch_took_failure_swallowed (span : Span) (r : OSResult)
    (tookOf : String → Except PyErr (Option Int)) (err : PyErr)
    (hfail : tookOf r.body = Except.error err) :
    perform_request_post span (Except.ok r) tookOf =
      perform_request_post span (Except.ok r) (fun _ => Except.ok none) ∧
    (perform_request_post span (Except.ok r) tookOf).2 = Except.ok r ∧
    (perform_request_post span (Except.ok r) tookOf).1.metrics = span.metrics ∧
    ∀ k : String, k ≠ "http.status_code" →
      (perform_request_post span (Except.ok r) tookOf).1.get_tag k = span.get_tag k := by
  cases r with
  | statusBody s b =>
      have hb : tookOf b = Except.error err := hfail
      have hred : perform_request_post span (Except.ok (OSResult.statusBody s b)) tookOf =
          (if s ≠ 0 then span.set_tag "http.status_code" (TagVal.int s) else span,
            Except.ok (OSResult.statusBody s b)) := by
        simp [perform_request_post, OSResult.body, hb]
      have hben : perform_request_post span (Except.ok (OSResult.statusBody s b))
          (fun _ => Except.ok none) =
          (if s ≠ 0 then span.set_tag "http.status_code" (TagVal.int s) else span,
            Except.ok (OSResult.statusBody s b)) := by
        simp [perform_request_post, OSResult.body]
      refine ⟨hred.trans hben.symm, ?_, ?_, ?_⟩
      · rw [hred]
      · rw [hred]
        by_cases hs : s ≠ 0
        · rw [if_pos hs, set_tag_metrics]
        · rw [if_neg hs]
      · intro k hk
        rw [hred]
        by_cases hs : s ≠ 0
        · show (if s ≠ 0 then span.set_tag "http.status_code" (TagVal.int s)
            else span).get_tag k = span.get_tag k
          rw [if_pos hs, get_tag_set_tag_ne _ _ _ _ hk]
        · show (if s ≠ 0 then span.set_tag "http.status_code" (TagVal.int s)
            else span).get_tag k = span.get_tag k
          rw [if_neg hs]
  | bodyOnly b =>
      have hb : tookOf b = Except.error err := hfail
      have hred : perform_request_post span (Except.ok (OSResult.bodyOnly b)) tookOf =
          (span, Except.ok (OSResult.bodyOnly b)) := by
        simp [perform_request_post, OSResult.body, hb]
      have hben : perform_request_post span (Except.ok (OSResult.bodyOnly b))
          (fun _ => Except.ok none) = (span, Except.ok (OSResult.bodyOnly b)) := by
        simp [perform_request_post, OSResult.body]
      refine ⟨hred.trans hben.symm, ?_, ?_, ?_⟩
      · rw [hred]
      · rw [hred]
      · intro k _
        rw [hred]

/-- Witness for C9 at a concrete span, result and failing extraction. -/
theorem opensearch_took_failure_swallowed_witness :
    (perform_request_post spanOS (Except.ok (OSResult.statusBody 200 "payload"))
      (fun _ => Except.error (PyErr.exception "no json body"))).2 =
      Except.ok (OSResult.statusBody 200 "payload") ∧
    (perform_request_post spanOS (Except.ok (OSResult.statusBody 200 "payload"))
      (fun _ => Except.error (PyErr.exception "no json body"))).1.get_tag
      "opensearch.method" = some (TagVal.str "GET") := by
  have h := opensearch_took_failure_swallowed spanOS (OSResult.statusBody 200 "payload")
    (fun _ => Except.error (PyErr.exception "no json body"))
    (PyErr.exception "no json body") rfl
  exact ⟨h.2.1, (h.2.2.2 "opensearch.method" (by decide)).trans rfl⟩

end DdTracePy
